import Mathlib

/-!
Verification of the `timeinterval` package (go-time-intervals).

Shallow embedding of the package's data model and operations:

* `TI.GoTime` models `time.Time` as an absolute instant (nanoseconds since the
  Unix epoch) together with the fixed zone offset it carries; comparisons use
  the instant only, formatting uses the offset, exactly as in Go.
* durations (`time.Duration`) are modelled as `Int` nanoseconds.
* the RFC 3339 codec used via `time.Parse(time.RFC3339, s)` / `Format(time.RFC3339)`
  is embedded as `TI.parseTimeCore` / `TI.formatRFC3339` (proleptic Gregorian
  calendar, as in Go's `time` package).
* the regular expression `regexTimeStringISO`, `identifyType`,
  `parseDurationString`, `ParseIntervalISO8601`, the `Interval` methods
  (src/timeinterval/interval.go), the `Repeating` methods
  (src/timeinterval/repeating.go, method-for-method identical to
  `RepeatingInterval` in src/timeinterval/repeating_interval.go) and
  `ParseRepeatingIntervalISO8601` (src/timeinterval/timeinterval.go) are
  translated function by function.
* the tagged-interval redesign (src/unnamed/part_000: `NewInterval`,
  `Validate`, the `isoFormat` tag) lives in namespace `TI.Tagged`.

Arithmetic is executed on unbounded `Int`; `int64` overflow of `time.Duration`
is not modelled (none of the verified statements involves values anywhere near
the 64-bit range).
-/

instance {ε α : Type} [DecidableEq ε] [DecidableEq α] : DecidableEq (Except ε α) :=
  fun a b =>
  match a, b with
  | .ok x, .ok y => if h : x = y then .isTrue (by rw [h]) else .isFalse (by simp [h])
  | .error x, .error y => if h : x = y then .isTrue (by rw [h]) else .isFalse (by simp [h])
  | .ok _, .error _ => .isFalse (by simp)
  | .error _, .ok _ => .isFalse (by simp)

namespace TI

/-- Model of Go `time.Time`: absolute instant in nanoseconds since the Unix
epoch plus the fixed zone offset (in minutes) recorded at construction.
`Before`/`Equal`/`Sub`/`Add` act on the instant; `Format` uses the offset. -/
structure GoTime where
  nanos : Int
  offMin : Int
deriving DecidableEq, Repr

def nsPerSec : Int := 1000000000

def nsPerDay : Int := 86400 * nsPerSec

/-- `durationDay = 24 * time.Hour` (src/unnamed/part_003). -/
def durationDay : Int := 24 * 3600 * nsPerSec

/-- `durationWeek = 7 * 24 * time.Hour` (src/unnamed/part_003). -/
def durationWeek : Int := 7 * durationDay

/-- Go `t.Add(d)`: shifts the instant, keeps the location. -/
def GoTime.add (t : GoTime) (d : Int) : GoTime := ⟨t.nanos + d, t.offMin⟩

/-- Go `a.Sub(b)` as a duration in nanoseconds. -/
def GoTime.sub (a b : GoTime) : Int := a.nanos - b.nanos

/-- Go `a.Before(b)`. -/
def GoTime.before (a b : GoTime) : Bool := decide (a.nanos < b.nanos)

/-- Go `a.Equal(b)` (compares instants, not zones). -/
def GoTime.equal (a b : GoTime) : Bool := decide (a.nanos = b.nanos)

/-- Go `a.After(b)`. -/
def GoTime.after (a b : GoTime) : Bool := decide (b.nanos < a.nanos)

/-! ### Proleptic Gregorian calendar (as used by Go's `time` package) -/

/-- Days since the Unix epoch of a civil date (Howard Hinnant's algorithm,
agrees with Go's internal absolute-date computation on all valid dates). -/
def daysFromCivil (y m d : Int) : Int :=
  let y' := if m ≤ 2 then y - 1 else y
  let era := Int.fdiv y' 400
  let yoe := y' - era * 400
  let mp := if 2 < m then m - 3 else m + 9
  let doy := Int.fdiv (153 * mp + 2) 5 + d - 1
  let doe := yoe * 365 + Int.fdiv yoe 4 - Int.fdiv yoe 100 + doy
  era * 146097 + doe - 719468

/-- Civil date from days since the Unix epoch (inverse of `daysFromCivil`). -/
def civilFromDays (z0 : Int) : Int × Int × Int :=
  let z := z0 + 719468
  let era := Int.fdiv z 146097
  let doe := z - era * 146097
  let yoe := Int.fdiv (doe - Int.fdiv doe 1460 + Int.fdiv doe 36524 - Int.fdiv doe 146096) 365
  let y := yoe + era * 400
  let doy := doe - (365 * yoe + Int.fdiv yoe 4 - Int.fdiv yoe 100)
  let mp := Int.fdiv (5 * doy + 2) 153
  let d := doy - Int.fdiv (153 * mp + 2) 5 + 1
  let m := if mp < 10 then mp + 3 else mp - 9
  (if m ≤ 2 then y + 1 else y, m, d)

/-- Go `isLeap` (time/time.go). -/
def isLeapYear (y : Int) : Bool :=
  Int.tmod y 4 == 0 && (Int.tmod y 100 != 0 || Int.tmod y 400 == 0)

/-- Go `daysIn(m, year)`. -/
def daysInMonth (m y : Int) : Int :=
  if m = 2 then (if isLeapYear y then 29 else 28)
  else if m = 4 ∨ m = 6 ∨ m = 9 ∨ m = 11 then 30
  else 31

/-! ### Character/digit helpers -/

def isDigitChar (c : Char) : Bool := decide ('0' ≤ c) && decide (c ≤ '9')

def digitVal (c : Char) : Nat := c.toNat - '0'.toNat

/-- Maximal leading run of decimal digits. -/
def takeDigits : List Char → List Char × List Char
  | [] => ([], [])
  | c :: rest =>
    if isDigitChar c then
      let (ds, r) := takeDigits rest
      (c :: ds, r)
    else ([], c :: rest)

def digitsToNat (ds : List Char) : Nat :=
  ds.foldl (fun acc c => acc * 10 + digitVal c) 0

/-! ### RFC 3339 timestamp codec (Go `time.Parse(time.RFC3339, s)` and
`t.Format(time.RFC3339)`) -/

def expectChar (c : Char) : List Char → Except String (List Char)
  | x :: rest => if x = c then .ok rest else .error "parsing time: literal mismatch"
  | [] => .error "parsing time: input too short"

/-- Two mandatory decimal digits (Go `getnum` with `fixed = true`). -/
def read2 : List Char → Except String (Nat × List Char)
  | a :: b :: rest =>
    if isDigitChar a && isDigitChar b then
      .ok (digitVal a * 10 + digitVal b, rest)
    else .error "parsing time: invalid number"
  | _ => .error "parsing time: input too short"

/-- Four mandatory decimal digits (the `2006` year field of the layout). -/
def read4 : List Char → Except String (Nat × List Char)
  | a :: b :: c :: d :: rest =>
    if isDigitChar a && isDigitChar b && isDigitChar c && isDigitChar d then
      .ok (digitVal a * 1000 + digitVal b * 100 + digitVal c * 10 + digitVal d, rest)
    else .error "parsing time: invalid number"
  | _ => .error "parsing time: input too short"

/-- Go `parseNanoseconds`: the fractional digits, truncated to 9, scaled to
nanoseconds. -/
def nanosOfFrac (ds : List Char) : Int :=
  let d9 := ds.take 9
  (digitsToNat d9 : Int) * (10 : Int) ^ (9 - d9.length)

/-- `time.Parse(time.RFC3339, s)`: fixed layout `2006-01-02T15:04:05Z07:00`.
Accepts an optional fractional second after the seconds field (Go accepts it
even though the layout does not show one) and either `Z` or a numeric
`±hh:mm` zone; validates month, day (including leap years), hour, minute and
second ranges exactly as Go's `Time.Parse` does. -/
def parseTimeCore (cs0 : List Char) : Except String GoTime := do
  let (y, cs) ← read4 cs0
  let cs ← expectChar '-' cs
  let (mo, cs) ← read2 cs
  let cs ← expectChar '-' cs
  let (dy, cs) ← read2 cs
  let cs ← expectChar 'T' cs
  let (h, cs) ← read2 cs
  let cs ← expectChar ':' cs
  let (mi, cs) ← read2 cs
  let cs ← expectChar ':' cs
  let (se, cs) ← read2 cs
  let (frac, cs) :=
    match cs with
    | c :: c2 :: rest =>
      if (c = '.' || c = ',') && isDigitChar c2 then
        let (ds, r) := takeDigits (c2 :: rest)
        (nanosOfFrac ds, r)
      else ((0 : Int), cs)
    | _ => ((0 : Int), cs)
  let (offMin, cs) ←
    (match cs with
     | 'Z' :: rest => .ok ((0 : Int), rest)
     | c :: rest =>
       if c = '+' || c = '-' then do
         let (zh, r) ← read2 rest
         let r ← expectChar ':' r
         let (zm, r) ← read2 r
         let sign : Int := if c = '+' then 1 else -1
         .ok (sign * ((zh : Int) * 60 + (zm : Int)), r)
       else .error "parsing time: bad zone"
     | [] => .error "parsing time: input too short")
  if cs ≠ [] then .error "parsing time: extra text" else
  if mo < 1 ∨ 12 < mo then .error "parsing time: month out of range" else
  if dy < 1 ∨ (dy : Int) > daysInMonth (mo : Int) (y : Int) then
    .error "parsing time: day out of range" else
  if 24 ≤ h then .error "parsing time: hour out of range" else
  if 60 ≤ mi then .error "parsing time: minute out of range" else
  if 60 ≤ se then .error "parsing time: second out of range" else
  let days := daysFromCivil (y : Int) (mo : Int) (dy : Int)
  let localSec : Int := days * 86400 + (h : Int) * 3600 + (mi : Int) * 60 + (se : Int)
  .ok ⟨localSec * nsPerSec + frac - offMin * 60 * nsPerSec, offMin⟩

/-- `parseTimeString` (src/timeinterval/timeinterval.go). -/
def parseTimeString (s : String) : Except String GoTime := parseTimeCore s.toList

def padTo (n : Nat) (ds : List Char) : List Char :=
  List.replicate (n - ds.length) '0' ++ ds

def pad2 (n : Nat) : List Char := padTo 2 (Nat.toDigits 10 n)

def pad4 (n : Nat) : List Char := padTo 4 (Nat.toDigits 10 n)

/-- `t.Format(time.RFC3339)`: prints the wall-clock fields in the time's own
zone, drops any sub-second part (the layout has no fractional field), and
prints `Z` for a zero offset and `±hh:mm` otherwise. -/
def formatRFC3339 (t : GoTime) : String :=
  let localNs := t.nanos + t.offMin * 60 * nsPerSec
  let days := Int.fdiv localNs nsPerDay
  let rem := localNs - days * nsPerDay
  let ymd := civilFromDays days
  let y := ymd.1
  let mo := ymd.2.1
  let dy := ymd.2.2
  let sod := (Int.fdiv rem nsPerSec).toNat
  let datePart :=
    (if y < 0 then ['-'] ++ pad4 (-y).toNat else pad4 y.toNat) ++
    ['-'] ++ pad2 mo.toNat ++ ['-'] ++ pad2 dy.toNat
  let timePart :=
    ['T'] ++ pad2 (sod / 3600) ++ [':'] ++ pad2 (sod / 60 % 60) ++ [':'] ++ pad2 (sod % 60)
  let zonePart :=
    if t.offMin = 0 then ['Z']
    else
      let a := t.offMin.natAbs
      (if t.offMin < 0 then ['-'] else ['+']) ++ pad2 (a / 60) ++ [':'] ++ pad2 (a % 60)
  String.mk (datePart ++ timePart ++ zonePart)

/-! ### The timestamp classifier regular expression

`regexTimeStringISO` (src/timeinterval/timeinterval.go):
`^(-?(?:[1-9][0-9]*)?[0-9]{4})-(1[0-2]|0[1-9])-(3[01]|0[1-9]|[12][0-9])T(2[0-3]|[01][0-9]):([0-5][0-9]):([0-5][0-9])(\.[0-9]+)?(Z)?$`
translated alternation by alternation. Note that the only zone designator the
pattern admits is an optional literal `Z`. -/

/-- `(1[0-2]|0[1-9])` -/
def monthOk (a b : Char) : Bool :=
  (a = '1' && ('0' ≤ b && b ≤ '2')) || (a = '0' && ('1' ≤ b && b ≤ '9'))

/-- `(3[01]|0[1-9]|[12][0-9])` -/
def dayOk (a b : Char) : Bool :=
  (a = '3' && (b = '0' || b = '1')) || (a = '0' && ('1' ≤ b && b ≤ '9')) ||
  ((a = '1' || a = '2') && isDigitChar b)

/-- `(2[0-3]|[01][0-9])` -/
def hourOk (a b : Char) : Bool :=
  (a = '2' && ('0' ≤ b && b ≤ '3')) || ((a = '0' || a = '1') && isDigitChar b)

/-- `([0-5][0-9])` -/
def minSecOk (a b : Char) : Bool :=
  ('0' ≤ a && a ≤ '5') && isDigitChar b

/-- `(\.[0-9]+)?(Z)?$`: optional fractional seconds, then an optional `Z`,
then end of input. -/
def regexTail : List Char → Bool
  | [] => true
  | ['Z'] => true
  | '.' :: rest =>
    match takeDigits rest with
    | ([], _) => false
    | (_ :: _, r) => r = [] || r = ['Z']
  | _ => false

/-- The year group `-?(?:[1-9][0-9]*)?[0-9]{4}` followed by the rest of the
pattern. With backtracking, the year group matches a maximal digit run of
length `≥ 4` whose first digit is nonzero whenever the run is longer than 4. -/
def matchTimeStringISO (cs0 : List Char) : Bool :=
  let cs1 := match cs0 with
    | '-' :: r => r
    | r => r
  let yr := takeDigits cs1
  let ys := yr.1
  let yearOk := 4 ≤ ys.length && (ys.length = 4 || ys.headD '0' ≠ '0')
  yearOk &&
    match yr.2 with
    | '-' :: m1 :: m2 :: '-' :: d1 :: d2 :: 'T' :: h1 :: h2 :: ':' :: mi1 :: mi2 ::
        ':' :: s1 :: s2 :: rest =>
      monthOk m1 m2 && dayOk d1 d2 && hourOk h1 h2 && minSecOk mi1 mi2 &&
        minSecOk s1 s2 && regexTail rest
    | _ => false

/-! ### Part classification (`identifyType`, src/timeinterval/timeinterval.go) -/

inductive formatType where
  | typeUnknown | typeTime | typeDuration
deriving DecidableEq, Repr

/-- `identifyType`: a part matching the timestamp regex is a `TypeTime`, a part
beginning with `P` is a `TypeDuration`, anything else is unknown and an error.
The Go function's `TypeUnknown` return travels together with the error, so the
error alternative of `Except` represents it. -/
def identifyType (cs : List Char) : Except String formatType :=
  if matchTimeStringISO cs then .ok .typeTime
  else if cs.head? = some 'P' then .ok .typeDuration
  else .error "invalid/unknown format"

/-! ### Duration decoding (`parseDurationString`) and `strconv.Atoi` -/

def maxInt64 : Nat := 9223372036854775807

/-- `strconv.Atoi`: optional sign, then a nonempty digit string; errors on any
other character and on 64-bit overflow. -/
def goAtoi (cs : List Char) : Except String Int :=
  let (sgn, ds) :=
    match cs with
    | '+' :: r => ((1 : Int), r)
    | '-' :: r => ((-1 : Int), r)
    | r => ((1 : Int), r)
  if ds.isEmpty || !ds.all isDigitChar then .error "invalid syntax"
  else
    let n := digitsToNat ds
    if (sgn = 1 && decide (maxInt64 < n)) || (sgn = -1 && decide (maxInt64 + 1 < n)) then
      .error "value out of range"
    else .ok (sgn * (n : Int))

/-- The rune loop of `parseDurationString`: on `W`/`D` the digit accumulator
`countStr` is cleared and `currentCount` times the unit length is added, but
`currentCount` itself is NOT reset; on any other rune the rune is appended to
`countStr` and the whole accumulator is re-converted with `Atoi`. -/
def parseDurationLoop : List Char → List Char → Int → Int → Except String Int
  | [], _, _, d => .ok d
  | c :: rest, countStr, currentCount, d =>
    if c = 'W' then
      parseDurationLoop rest [] currentCount (d + currentCount * durationWeek)
    else if c = 'D' then
      parseDurationLoop rest [] currentCount (d + currentCount * durationDay)
    else
      let countStr' := countStr ++ [c]
      match goAtoi countStr' with
      | .error e => .error e
      | .ok n => parseDurationLoop rest countStr' n d

/-- `parseDurationString` (src/timeinterval/timeinterval.go, identical in
src/unnamed/part_003): requires the leading `P`, then runs the rune loop with
`countStr = ""` and `currentCount = 1`. -/
def parseDurationString (cs : List Char) : Except String Int :=
  match cs with
  | 'P' :: rest => parseDurationLoop rest [] 1 0
  | _ => .error "invalid duration format"

/-- Modelled from the spec: `durationToISO8601`, the Duration Codec's encoder,
is called by `Interval.ISO8601` and `Repeating.ISO8601` but its definition is
not among the provided source files. Per the spec's Duration Codec contract:
the leading marker `P` followed by `<count><unit>` groups with unit `W`
(week = 7 days) before `D` (day = 24 hours), the canonical greedy
decomposition; a negative duration or one that is not a whole number of days
is not representable and yields an error. -/
def durationToISO8601 (d : Int) : Except String String :=
  if d < 0 then .error "unsupported duration"
  else if Int.emod d durationDay ≠ 0 then .error "unsupported duration"
  else
    let weeks := Int.fdiv d durationWeek
    let days := Int.fdiv (Int.emod d durationWeek) durationDay
    let wPart := if weeks = 0 then "" else toString weeks ++ "W"
    let dPart := if days = 0 then "" else toString days ++ "D"
    .ok ("P" ++ wPart ++ dPart)

/-! ### The pointer-based `Interval` (src/timeinterval/interval.go) -/

/-- `Interval` with optional `startsAt`/`endsAt`/`duration` fields (the Go
struct stores nullable pointers). -/
structure Interval where
  startsAt : Option GoTime
  endsAt : Option GoTime
  duration : Option Int
deriving DecidableEq, Repr

/-- `Interval.StartsAtDerivedFromDuration`. -/
def Interval.StartsAtDerivedFromDuration (i : Interval) : Bool :=
  i.startsAt.isNone && i.endsAt.isSome && i.duration.isSome

/-- `Interval.EndsAtDerivedFromDuration`. -/
def Interval.EndsAtDerivedFromDuration (i : Interval) : Bool :=
  i.endsAt.isNone && i.startsAt.isSome && i.duration.isSome

/-- `Interval.StartsAt`: the stored bound, or `endsAt - duration` when the
start is derived. -/
def Interval.StartsAt (i : Interval) : Option GoTime :=
  match i.startsAt, i.endsAt, i.duration with
  | none, some e, some d => some (e.add (-d))
  | s, _, _ => s

/-- `Interval.EndsAt`: the stored bound, or `startsAt + duration` when the end
is derived. -/
def Interval.EndsAt (i : Interval) : Option GoTime :=
  match i.endsAt, i.startsAt, i.duration with
  | none, some s, some d => some (s.add d)
  | e, _, _ => e

/-- `Interval.Duration`: the stored duration if any, otherwise the distance
between the effective bounds. -/
def Interval.Duration (i : Interval) : Option Int :=
  match i.duration with
  | some d => some d
  | none =>
    match i.StartsAt, i.EndsAt with
    | some s, some e => some (e.sub s)
    | _, _ => none

/-- `Interval.Started`: compares against the RAW `startsAt` field; a nil field
means "always started", even when a start would be derivable. -/
def Interval.Started (i : Interval) (t : GoTime) : Bool :=
  match i.startsAt with
  | none => true
  | some s => s.before t || s.equal t

/-- `Interval.Ended`: compares against the RAW `endsAt` field; a nil field
means "never ended", even when an end would be derivable. -/
def Interval.Ended (i : Interval) (t : GoTime) : Bool :=
  match i.endsAt with
  | none => false
  | some e => e.before t

/-- `Interval.In`. -/
def Interval.In (i : Interval) (t : GoTime) : Bool :=
  i.Started t && !i.Ended t

/-- `Interval.ISO8601`: the derived side is printed as a duration token, the
other side as an RFC 3339 timestamp; with no derived side both effective
bounds are formatted as timestamps. (In that last case Go dereferences the
bound pointers, panicking if one is nil; that situation is unreachable for
parser-produced values, and the zero time stands in for it here.) -/
def Interval.ISO8601 (i : Interval) : Except String String :=
  match i.startsAt, i.endsAt, i.duration with
  | none, some e, some d =>
    match durationToISO8601 d with
    | .error er => .error er
    | .ok s => .ok (s ++ "/" ++ formatRFC3339 e)
  | some st, none, some d =>
    match durationToISO8601 d with
    | .error er => .error er
    | .ok s => .ok (formatRFC3339 st ++ "/" ++ s)
  | _, _, _ =>
    .ok (formatRFC3339 (i.StartsAt.getD ⟨0, 0⟩) ++ "/" ++
         formatRFC3339 (i.EndsAt.getD ⟨0, 0⟩))

/-! ### The interval parser (`ParseIntervalISO8601`,
src/timeinterval/timeinterval.go) -/

/-- Go `strings.Split(s, sep)` for a single-character separator. -/
def splitChar (sep : Char) : List Char → List (List Char)
  | [] => [[]]
  | c :: rest =>
    let r := splitChar sep rest
    if c = sep then [] :: r
    else
      match r with
      | h :: t => (c :: h) :: t
      | [] => [[c]]

/-- `ParseIntervalISO8601` on the character list: split on `/` into exactly two
parts, classify both parts (the first classification error wins), reject two
durations, then decode each part — a timestamp at position 0 becomes
`startsAt`, at position 1 `endsAt`, a duration becomes `duration`. No bounds
validation is performed. -/
def parseIntervalCore (cs : List Char) : Except String Interval :=
  match splitChar '/' cs with
  | [p0, p1] =>
    match identifyType p0 with
    | .error e => .error e
    | .ok t0 =>
      match identifyType p1 with
      | .error e => .error e
      | .ok t1 =>
        match t0, t1 with
        | .typeDuration, .typeDuration => .error "interval cannot consist of two durations"
        | .typeUnknown, _ => .error "unvalid interval format"
        | _, .typeUnknown => .error "unvalid interval format"
        | .typeTime, .typeTime =>
          match parseTimeCore p0 with
          | .error e => .error e
          | .ok t0' =>
            match parseTimeCore p1 with
            | .error e => .error e
            | .ok t1' => .ok ⟨some t0', some t1', none⟩
        | .typeTime, .typeDuration =>
          match parseTimeCore p0 with
          | .error e => .error e
          | .ok t0' =>
            match parseDurationString p1 with
            | .error e => .error e
            | .ok d => .ok ⟨some t0', none, some d⟩
        | .typeDuration, .typeTime =>
          match parseDurationString p0 with
          | .error e => .error e
          | .ok d =>
            match parseTimeCore p1 with
            | .error e => .error e
            | .ok t1' => .ok ⟨none, some t1', some d⟩
  | _ => .error "invalid interval format"

/-- `ParseIntervalISO8601` (src/timeinterval/timeinterval.go). -/
def ParseIntervalISO8601 (s : String) : Except String Interval :=
  parseIntervalCore s.toList

/-! ### `Repeating` (src/timeinterval/repeating.go; `RepeatingInterval` in
src/timeinterval/repeating_interval.go is method-for-method identical with
`RepeatEvery` spelled `RepeatIn`) -/

structure Repeating where
  Interval : Interval
  RepeatEvery : Int
  Repetitions : Option Nat
deriving DecidableEq, Repr

/-- `Repeating.isStartsAtBoundedByRepetitions`: repetitions are present and
the wrapped interval's EFFECTIVE start is nil while its effective end is not. -/
def Repeating.isStartsAtBoundedByRepetitions (r : Repeating) : Bool :=
  r.Repetitions.isSome && r.Interval.StartsAt.isNone && r.Interval.EndsAt.isSome

/-- `Repeating.isEndsAtBoundedByRepetitions`. -/
def Repeating.isEndsAtBoundedByRepetitions (r : Repeating) : Bool :=
  r.Repetitions.isSome && r.Interval.EndsAt.isNone && r.Interval.StartsAt.isSome

/-- `Repeating.StartsAt`: `interval.EndsAt() - Repetitions*RepeatEvery` when
the start is bounded by repetitions, otherwise the interval's effective start. -/
def Repeating.StartsAt (r : Repeating) : Option GoTime :=
  match r.Repetitions, r.Interval.StartsAt, r.Interval.EndsAt with
  | some n, none, some e => some (e.add (-((n : Int) * r.RepeatEvery)))
  | _, _, _ => r.Interval.StartsAt

/-- `Repeating.EndsAt`: `interval.StartsAt() + Repetitions*RepeatEvery` when
the end is bounded by repetitions, otherwise the interval's effective end. -/
def Repeating.EndsAt (r : Repeating) : Option GoTime :=
  match r.Repetitions, r.Interval.EndsAt, r.Interval.StartsAt with
  | some n, none, some s => some (s.add ((n : Int) * r.RepeatEvery))
  | _, _, _ => r.Interval.EndsAt

/-- `Repeating.Duration`. -/
def Repeating.Duration (r : Repeating) : Option Int :=
  match r.StartsAt, r.EndsAt with
  | some s, some e => some (e.sub s)
  | _, _ => none

/-- `Repeating.Started`: uses the derived series start when the start is
bounded by repetitions, otherwise delegates to `Interval.Started` (raw field). -/
def Repeating.Started (r : Repeating) (t : GoTime) : Bool :=
  if r.isStartsAtBoundedByRepetitions then
    match r.StartsAt with
    | some s => t.equal s || t.after s
    | none => true
  else r.Interval.Started t

/-- `Repeating.Ended`: uses the derived series end when the end is bounded by
repetitions, otherwise delegates to `Interval.Ended` (raw field). -/
def Repeating.Ended (r : Repeating) (t : GoTime) : Bool :=
  if r.isEndsAtBoundedByRepetitions then
    match r.EndsAt with
    | some e => t.after e
    | none => false
  else r.Interval.Ended t

/-- `Repeating.In`. -/
def Repeating.In (r : Repeating) (t : GoTime) : Bool :=
  r.Started t && !r.Ended t

/-- `Repeating.Next`: the series start when not yet started; nil when ended or
when `RepeatEvery` is zero; otherwise `t + (RepeatEvery - (t-startsAt) % RepeatEvery)`
(Go `%` truncates, hence `Int.tmod`), or nil when `Ended` holds at that
candidate. (With a nil effective start Go would dereference nil and panic;
that arm is unreachable under the hypotheses of every statement below.) -/
def Repeating.Next (r : Repeating) (t : GoTime) : Option GoTime :=
  if !r.Started t then r.StartsAt
  else if r.Ended t || r.RepeatEvery == 0 then none
  else
    match r.StartsAt with
    | none => none
    | some s =>
      let diff := t.sub s
      let m := Int.tmod diff r.RepeatEvery
      let nxt := t.add (r.RepeatEvery - m)
      if r.Ended nxt then none else some nxt

/-! ### The repeating-interval parser (`ParseRepeatingIntervalISO8601`,
src/timeinterval/timeinterval.go) -/

/-- Result of running a Go function that may panic: `panics` models a runtime
panic (nil dereference, index out of range), `error` a returned error. -/
inductive GoResult (α : Type) where
  | panics : GoResult α
  | error : String → GoResult α
  | ok : α → GoResult α
deriving DecidableEq, Repr

/-- Go `strings.SplitN(s, sep, 2)` for a single-character separator: at most
two parts, the second keeps any further separators. -/
def goSplitN2 (sep : Char) : List Char → List (List Char)
  | [] => [[]]
  | c :: rest =>
    if c = sep then [[], rest]
    else
      match goSplitN2 sep rest with
      | [one] => [c :: one]
      | first :: others => (c :: first) :: others
      | [] => [[c]]

/-- `uint32(n)` conversion. -/
def toUint32 (n : Int) : Nat := (Int.emod n 4294967296).toNat

/-- The repetition-prefix step of `ParseRepeatingIntervalISO8601`: a prefix
longer than the single `R` has its tail decoded with `Atoi` and narrowed to
`uint32`; a bare `R` means no repetition count. -/
def parseRepetitions (repetitionString : List Char) : Except String (Option Nat) :=
  if 1 < repetitionString.length then
    match goAtoi (repetitionString.drop 1) with
    | .error e => .error e
    | .ok n => .ok (some (toUint32 n))
  else .ok none

/-- `ParseRepeatingIntervalISO8601`: requires the leading `R`; splits once on
`/` and reads `parts[1]` — when the input contains no `/` this index is out of
range and the function PANICS. The repetition prefix is decoded with
`parseRepetitions`; the remaining segment is parsed as an interval, and
`RepeatEvery` is set to the interval's duration when that is non-nil (zero
otherwise). -/
def ParseRepeatingIntervalISO8601 (s : String) : GoResult Repeating :=
  if s.toList.head? = some 'R' then
    match goSplitN2 '/' s.toList with
    | [_] => .panics
    | repetitionString :: intervalString :: _ =>
      match parseRepetitions repetitionString with
      | .error e => .error e
      | .ok reps =>
        match parseIntervalCore intervalString with
        | .error e => .error e
        | .ok i => .ok ⟨i, (i.Duration).getD 0, reps⟩
    | [] => .panics
  else .error "invalid repeating interval format"

/-! ### The tagged-interval redesign (src/unnamed/part_000) -/

namespace Tagged

/-- The `isoFormat` discriminant recording the construction shape. -/
inductive isoFormat where
  | unknown | timeAndTime | timeAndDuration | durationAndTime
deriving DecidableEq, Repr

/-- part_000's `Interval`: both bounds stored explicitly plus the format tag. -/
structure Interval where
  Format : isoFormat
  StartsAt : GoTime
  EndsAt : GoTime
deriving DecidableEq, Repr

/-- `Interval.Validate`: an error when the end is strictly before the start or
the format tag is unset, otherwise no error. -/
def Interval.Validate (i : Interval) : Option String :=
  if i.EndsAt.before i.StartsAt then some "interval must start before it ends"
  else if i.Format = .unknown then some "unknown ISO8601 output format"
  else none

/-- Models Go's `return &in, in.Validate()`: callers treat a non-nil error as
failure, so the pair collapses to an `Except`. -/
def checked (i : Interval) : Except String Interval :=
  match i.Validate with
  | some e => .error e
  | none => .ok i

/-- `NewInterval` (src/unnamed/part_000): errors when both endpoints are nil,
or when exactly one endpoint is given without a duration; otherwise fills the
missing endpoint from the duration, records the shape tag, and fails with
`Validate`'s error if the constructed interval is invalid. -/
def NewInterval (startsAt endsAt : Option GoTime) (duration : Option Int) :
    Except String Interval :=
  match startsAt, endsAt with
  | none, none => .error "invalid interval"
  | some sa, some ea => checked ⟨.timeAndTime, sa, ea⟩
  | some sa, none =>
    match duration with
    | none => .error "invalid interval"
    | some d => checked ⟨.timeAndDuration, sa, sa.add d⟩
  | none, some ea =>
    match duration with
    | none => .error "invalid interval"
    | some d => checked ⟨.durationAndTime, ea.add (-d), ea⟩

end Tagged

/-! ## Claims -/

/-- Claim C1, counterexample: the string
`2019-01-02T21:00:00.5Z/2022-01-03T21:00:00Z` is accepted by
`ParseIntervalISO8601` (the classifier regex admits fractional seconds and the
RFC 3339 decoder accepts them), but formatting the parsed interval drops the
fractional second, so `format(parse(s))` is a different string than `s`. -/
theorem claim_C1_counterexample :
    ParseIntervalISO8601 "2019-01-02T21:00:00.5Z/2022-01-03T21:00:00Z" =
      .ok ⟨some ⟨1546462800500000000, 0⟩, some ⟨1641243600000000000, 0⟩, none⟩ ∧
    Interval.ISO8601 ⟨some ⟨1546462800500000000, 0⟩, some ⟨1641243600000000000, 0⟩, none⟩ =
      .ok "2019-01-02T21:00:00Z/2022-01-03T21:00:00Z" ∧
    "2019-01-02T21:00:00Z/2022-01-03T21:00:00Z" ≠
      "2019-01-02T21:00:00.5Z/2022-01-03T21:00:00Z" := by
  refine ⟨by decide, by decide, by decide⟩

/-- Claim C1 (amended): the three literal cases round-trip exactly through
`ParseIntervalISO8601` and `Interval.ISO8601`, each reproducing its
originating shape — `Time/Time` is stored with both bounds and no duration,
`Time/Duration` with a start and a duration, `Duration/Time` with an end and
a duration — rather than normalising to `Time/Time`. -/
theorem claim_C1_theorem :
    (ParseIntervalISO8601 "2019-01-02T21:00:00Z/2022-01-03T21:00:00Z" =
        .ok ⟨some ⟨1546462800000000000, 0⟩, some ⟨1641243600000000000, 0⟩, none⟩ ∧
      Interval.ISO8601 ⟨some ⟨1546462800000000000, 0⟩, some ⟨1641243600000000000, 0⟩, none⟩ =
        .ok "2019-01-02T21:00:00Z/2022-01-03T21:00:00Z") ∧
    (ParseIntervalISO8601 "2019-01-02T21:00:00Z/P1W" =
        .ok ⟨some ⟨1546462800000000000, 0⟩, none, some 604800000000000⟩ ∧
      Interval.ISO8601 ⟨some ⟨1546462800000000000, 0⟩, none, some 604800000000000⟩ =
        .ok "2019-01-02T21:00:00Z/P1W") ∧
    (ParseIntervalISO8601 "P1W/2022-01-03T21:00:00Z" =
        .ok ⟨none, some ⟨1641243600000000000, 0⟩, some 604800000000000⟩ ∧
      Interval.ISO8601 ⟨none, some ⟨1641243600000000000, 0⟩, some 604800000000000⟩ =
        .ok "P1W/2022-01-03T21:00:00Z") := by
  refine ⟨⟨by decide, by decide⟩, ⟨by decide, by decide⟩, ⟨by decide, by decide⟩⟩

/-- Claim C7, counterexample: `P2WD` decodes to 2 weeks plus 2 days, not the
claimed 2 weeks plus 1 day — the `W` case clears the digit accumulator but not
the current count, so the bare `D` reuses the count 2. -/
theorem claim_C7_counterexample :
    parseDurationString "P2WD".toList = .ok (2 * durationWeek + 2 * durationDay) ∧
    (2 * durationWeek + 2 * durationDay : Int) ≠ 2 * durationWeek + durationDay := by
  refine ⟨by decide, by decide⟩

/-- Claim C7 (amended): each unit letter contributes `count × unit-length`
where `count` is the value of the most recently read digit sequence anywhere
earlier in the string (1 if none has been read yet); the digit accumulator is
cleared after a unit letter but the count value persists, so a unit letter
with no immediately preceding digits repeats the previous count: `PW = 1W`,
`P1W = 1W`, `P10D = 10D`, `P2W3D = 2W+3D`, but `P2WD = 2W+2D` and
`P2WDD = 2W+2D+2D`. -/
theorem claim_C7_theorem :
    parseDurationString "PW".toList = .ok durationWeek ∧
    parseDurationString "P1W".toList = .ok durationWeek ∧
    parseDurationString "P10D".toList = .ok (10 * durationDay) ∧
    parseDurationString "P2W3D".toList = .ok (2 * durationWeek + 3 * durationDay) ∧
    parseDurationString "P2WD".toList = .ok (2 * durationWeek + 2 * durationDay) ∧
    parseDurationString "P2WDD".toList = .ok (2 * durationWeek + 4 * durationDay) := by
  refine ⟨by decide, by decide, by decide, by decide, by decide, by decide⟩

/-- Claim C8: `ParseRepeatingIntervalISO8601` is NOT total — on the input `R`
(prefix `R` present, no `/` separator) `strings.SplitN` yields a single part
and the unconditional read of `parts[1]` panics with an index-out-of-range
runtime error instead of returning an error. -/
theorem claim_C8_theorem :
    ParseRepeatingIntervalISO8601 "R" = GoResult.panics := by decide

/-- Claim C9, counterexample: the interval string
`2019-01-02T21:00:00+02:00/2022-01-03T21:00:00Z`, whose first part is a
well-formed strict offset timestamp, is rejected by `ParseIntervalISO8601`
with the classifier's invalid/unknown-format error, contradicting the claim
that it parses successfully. -/
theorem claim_C9_counterexample :
    ParseIntervalISO8601 "2019-01-02T21:00:00+02:00/2022-01-03T21:00:00Z" =
      .error "invalid/unknown format" := by decide

/-- Claim C9 (amended): the classifier regex admits only an optional literal
`Z` as zone designator, so a numeric-offset timestamp part — although the
RFC 3339 decoder itself accepts it — is classified as unknown and rejected,
while the same timestamp with `Z` is classified as a Timestamp part. -/
theorem claim_C9_theorem :
    matchTimeStringISO "2019-01-02T21:00:00+02:00".toList = false ∧
    identifyType "2019-01-02T21:00:00+02:00".toList = .error "invalid/unknown format" ∧
    identifyType "2019-01-02T21:00:00Z".toList = .ok .typeTime ∧
    parseTimeString "2019-01-02T21:00:00+02:00" = .ok ⟨1546455600000000000, 120⟩ := by
  refine ⟨by decide, by decide, by decide, by decide⟩

/-- Claim C10: with a nil `startsAt` field `Started` is constantly true (even
when a start is derivable from `endsAt` and `duration`), with a nil `endsAt`
field `Ended` is constantly false (even when an end is derivable), and `In`
then reduces to the remaining raw-field comparison. -/
theorem claim_C10_theorem :
    (∀ (i : Interval) (t : GoTime), i.startsAt = none → i.Started t = true) ∧
    (∀ (i : Interval) (t : GoTime), i.endsAt = none → i.Ended t = false) ∧
    (∀ (i : Interval) (t : GoTime), i.startsAt = none → i.In t = !i.Ended t) ∧
    (∀ (i : Interval) (t : GoTime), i.endsAt = none → i.In t = i.Started t) := by
  refine ⟨?_, ?_, ?_, ?_⟩ <;> intro i t h <;>
    simp [Interval.Started, Interval.Ended, Interval.In, h]

/-- Claim C10, witness: a `Duration/Time`-shaped interval (derivable start) is
started at a time before its derivable start; a `Time/Duration`-shaped
interval (derivable end) is not ended at a time after its derivable end; the
corresponding `In` reductions, all obtained from `claim_C10_theorem`. -/
theorem claim_C10_witness :
    Interval.Started ⟨none, some ⟨100, 0⟩, some 5⟩ ⟨-50, 0⟩ = true ∧
    Interval.Ended ⟨some ⟨0, 0⟩, none, some 5⟩ ⟨1000, 0⟩ = false ∧
    Interval.In ⟨none, some ⟨100, 0⟩, some 5⟩ ⟨-50, 0⟩ =
      !Interval.Ended ⟨none, some ⟨100, 0⟩, some 5⟩ ⟨-50, 0⟩ ∧
    Interval.In ⟨some ⟨0, 0⟩, none, some 5⟩ ⟨1000, 0⟩ =
      Interval.Started ⟨some ⟨0, 0⟩, none, some 5⟩ ⟨1000, 0⟩ :=
  ⟨claim_C10_theorem.1 _ _ rfl, claim_C10_theorem.2.1 _ _ rfl,
   claim_C10_theorem.2.2.1 _ _ rfl, claim_C10_theorem.2.2.2 _ _ rfl⟩


/-- Claim C2, counterexample: the parsed `Duration/Time` interval
`P1W/2022-01-03T21:00:00Z` has a derived effective start, yet `Started` is
true one hour BEFORE that derived start, because `Started` only consults the
raw `startsAt` field, which is nil. -/
theorem claim_C2_counterexample :
    ParseIntervalISO8601 "P1W/2022-01-03T21:00:00Z" =
      .ok ⟨none, some ⟨1641243600000000000, 0⟩, some 604800000000000⟩ ∧
    Interval.StartsAt ⟨none, some ⟨1641243600000000000, 0⟩, some 604800000000000⟩ =
      some ⟨1640638800000000000, 0⟩ ∧
    Interval.Started ⟨none, some ⟨1641243600000000000, 0⟩, some 604800000000000⟩
      ⟨1640638800000000000 - 3600000000000, 0⟩ = true := by
  refine ⟨by decide, by decide, by decide⟩

/-- Claim C2 (amended): `Started(t)` compares against the RAW `startsAt`
field: when the start is duration-derived (`Duration/Time` shape) `Started` is
constantly true — the derived start is never consulted — and when `startsAt`
is stored explicitly, `Started(t)` holds iff `t ≥ startsAt`. -/
theorem claim_C2_theorem :
    (∀ (i : Interval) (t : GoTime), i.StartsAtDerivedFromDuration = true → i.Started t = true) ∧
    (∀ (i : Interval) (t s : GoTime), i.startsAt = some s →
      (i.Started t = true ↔ s.nanos ≤ t.nanos)) := by
  constructor
  · intro i t h
    simp [Interval.StartsAtDerivedFromDuration, Option.isNone_iff_eq_none] at h
    simp [Interval.Started, h.1]
  · intro i t s h
    simp [Interval.Started, h, GoTime.before, GoTime.equal]
    omega

/-- Claim C2, witness: both halves of `claim_C2_theorem` instantiated — a
duration-derived interval is started at every time, and an explicit start is
compared with `≤`. -/
theorem claim_C2_witness :
    Interval.Started ⟨none, some ⟨1641243600000000000, 0⟩, some 604800000000000⟩ ⟨0, 0⟩ = true ∧
    (Interval.Started ⟨some ⟨5, 0⟩, none, none⟩ ⟨7, 0⟩ = true ↔ (5 : Int) ≤ 7) :=
  ⟨claim_C2_theorem.1 _ _ (by decide),
   claim_C2_theorem.2 ⟨some ⟨5, 0⟩, none, none⟩ ⟨7, 0⟩ ⟨5, 0⟩ rfl⟩

/-- Claim C3, counterexample: the parsed `Time/Duration` interval
`2019-01-02T21:00:00Z/P1W` has a derived effective end `EndsAt()`, yet `Ended`
is false one hour AFTER that derived end, because `Ended` only consults the
raw `endsAt` field, which is nil. -/
theorem claim_C3_counterexample :
    ParseIntervalISO8601 "2019-01-02T21:00:00Z/P1W" =
      .ok ⟨some ⟨1546462800000000000, 0⟩, none, some 604800000000000⟩ ∧
    Interval.EndsAt ⟨some ⟨1546462800000000000, 0⟩, none, some 604800000000000⟩ =
      some ⟨1547067600000000000, 0⟩ ∧
    Interval.Ended ⟨some ⟨1546462800000000000, 0⟩, none, some 604800000000000⟩
      ⟨1547067600000000000 + 3600000000000, 0⟩ = false := by
  refine ⟨by decide, by decide, by decide⟩

/-- Claim C3 (amended): `Ended(t)` compares against the RAW `endsAt` field:
when the end is duration-derived (`Time/Duration` shape) `Ended` is constantly
false — the derived end is never consulted — and when `endsAt` is stored
explicitly, `Ended(t)` holds iff `t` is strictly after it (so
`Ended(EndsAt())` is false for explicit ends). -/
theorem claim_C3_theorem :
    (∀ (i : Interval) (t : GoTime), i.EndsAtDerivedFromDuration = true → i.Ended t = false) ∧
    (∀ (i : Interval) (t e : GoTime), i.endsAt = some e →
      (i.Ended t = true ↔ e.nanos < t.nanos)) := by
  constructor
  · intro i t h
    simp [Interval.EndsAtDerivedFromDuration, Option.isNone_iff_eq_none] at h
    simp [Interval.Ended, h.1]
  · intro i t e h
    simp [Interval.Ended, h, GoTime.before]

/-- Claim C3, witness: both halves of `claim_C3_theorem` instantiated — a
duration-derived end never ends the interval, and an explicit end is compared
strictly. -/
theorem claim_C3_witness :
    Interval.Ended ⟨some ⟨1546462800000000000, 0⟩, none, some 604800000000000⟩
      ⟨9999999999999999999, 0⟩ = false ∧
    (Interval.Ended ⟨none, some ⟨5, 0⟩, none⟩ ⟨7, 0⟩ = true ↔ (5 : Int) < 7) :=
  ⟨claim_C3_theorem.1 _ _ (by decide),
   claim_C3_theorem.2 ⟨none, some ⟨5, 0⟩, none⟩ ⟨7, 0⟩ ⟨5, 0⟩ rfl⟩

/-- Claim C4, counterexample: `ParseIntervalISO8601` accepts the reversed
string `2022-01-03T21:00:00Z/2019-01-02T21:00:00Z` and returns an interval
whose `EndsAt()` is strictly before its `StartsAt()` — the parser performs no
bounds validation. -/
theorem claim_C4_counterexample :
    ParseIntervalISO8601 "2022-01-03T21:00:00Z/2019-01-02T21:00:00Z" =
      .ok ⟨some ⟨1641243600000000000, 0⟩, some ⟨1546462800000000000, 0⟩, none⟩ ∧
    Interval.EndsAt ⟨some ⟨1641243600000000000, 0⟩, some ⟨1546462800000000000, 0⟩, none⟩ =
      some ⟨1546462800000000000, 0⟩ ∧
    Interval.StartsAt ⟨some ⟨1641243600000000000, 0⟩, some ⟨1546462800000000000, 0⟩, none⟩ =
      some ⟨1641243600000000000, 0⟩ ∧
    (1546462800000000000 : Int) < 1641243600000000000 := by
  refine ⟨by decide, by decide, by decide, by decide⟩

/-- If the validate-and-return step succeeds, the interval validated to no
error. -/
theorem tagged_checked_ok (j i : Tagged.Interval) (h : Tagged.checked j = .ok i) :
    i.Validate = none := by
  unfold Tagged.checked at h
  split at h
  · simp at h
  · cases h; assumption

/-- Every interval returned by `Tagged.NewInterval` passed `Validate`. -/
theorem tagged_newInterval_validate (sa ea : Option GoTime) (du : Option Int)
    (i : Tagged.Interval) (h : Tagged.NewInterval sa ea du = .ok i) :
    i.Validate = none := by
  unfold Tagged.NewInterval at h
  repeat' split at h
  all_goals first
    | exact tagged_checked_ok _ _ h
    | simp_all

/-- Claim C4 (amended): the tagged constructor `NewInterval`
(src/unnamed/part_000) indeed never returns an interval whose end is strictly
before its start — `Validate` rejects it — but `ParseIntervalISO8601`
(src/timeinterval/timeinterval.go) never calls a validator: it accepts the
reversed string and returns an interval with `EndsAt()` strictly before
`StartsAt()`. -/
theorem claim_C4_theorem :
    (∀ (sa ea : Option GoTime) (du : Option Int) (i : Tagged.Interval),
      Tagged.NewInterval sa ea du = .ok i → i.StartsAt.nanos ≤ i.EndsAt.nanos) ∧
    (∃ i : Interval,
      ParseIntervalISO8601 "2022-01-03T21:00:00Z/2019-01-02T21:00:00Z" = .ok i ∧
      ∃ e s, i.EndsAt = some e ∧ i.StartsAt = some s ∧ e.nanos < s.nanos) := by
  constructor
  · intro sa ea du i h
    have hv := tagged_newInterval_validate sa ea du i h
    unfold Tagged.Interval.Validate at hv
    split at hv
    · simp at hv
    · rename_i hb
      split at hv
      · simp at hv
      · simp [GoTime.before] at hb
        omega
  · exact ⟨⟨some ⟨1641243600000000000, 0⟩, some ⟨1546462800000000000, 0⟩, none⟩,
      by decide, ⟨1546462800000000000, 0⟩, ⟨1641243600000000000, 0⟩,
      by decide, by decide, by decide⟩

/-- Claim C4, witness: `claim_C4_theorem` instantiated at a successful
`NewInterval` construction. -/
theorem claim_C4_witness :
    (Tagged.Interval.StartsAt ⟨.timeAndTime, ⟨0, 0⟩, ⟨5, 0⟩⟩).nanos ≤
      (Tagged.Interval.EndsAt ⟨.timeAndTime, ⟨0, 0⟩, ⟨5, 0⟩⟩).nanos :=
  claim_C4_theorem.1 (some ⟨0, 0⟩) (some ⟨5, 0⟩) none _ (by decide)


/-- Every interval the parser returns has one of the three shapes
`Time/Time`, `Time/Duration` or `Duration/Time`; in particular both EFFECTIVE
bounds always exist. -/
theorem parseIntervalCore_shape (cs : List Char) (i : Interval)
    (h : parseIntervalCore cs = .ok i) :
    (∃ a b, i = ⟨some a, some b, none⟩) ∨ (∃ a d, i = ⟨some a, none, some d⟩) ∨
    (∃ b d, i = ⟨none, some b, some d⟩) := by
  unfold parseIntervalCore at h
  repeat' split at h
  all_goals simp_all
  · exact Or.inl ⟨_, _, h.symm⟩
  · exact Or.inr (Or.inl ⟨_, _, h.symm⟩)
  · exact Or.inr (Or.inr ⟨_, _, h.symm⟩)

/-- The wrapped interval of a successfully parsed repeating interval came
from a successful run of the interval parser. -/
theorem parseRepeating_ok (s : String) (r : Repeating)
    (h : ParseRepeatingIntervalISO8601 s = .ok r) :
    ∃ cs, parseIntervalCore cs = .ok r.Interval := by
  unfold ParseRepeatingIntervalISO8601 at h
  repeat' split at h
  all_goals simp_all
  subst h
  rename_i hi
  exact ⟨_, hi⟩

/-- Claim C5 (amended): for every `Repeating` parsed from a string carrying a
repetition count, the wrapped interval always has both effective bounds, so
the repetition-bounded derivations (`isStartsAtBoundedByRepetitions` /
`isEndsAtBoundedByRepetitions`) never fire: the series' `StartsAt`/`EndsAt`
are exactly the wrapped interval's effective bounds and `Duration()` is one
`RepeatEvery` step, regardless of the count `n`. The `endsAt = startsAt +
n × repeatEvery` derivation applies only to directly constructed values whose
wrapped interval lacks the corresponding effective bound. -/
theorem claim_C5_theorem :
    ∀ (s : String) (r : Repeating) (n : Nat),
      ParseRepeatingIntervalISO8601 s = .ok r → r.Repetitions = some n →
      r.Interval.StartsAt.isSome = true ∧ r.Interval.EndsAt.isSome = true ∧
      r.StartsAt = r.Interval.StartsAt ∧ r.EndsAt = r.Interval.EndsAt ∧
      r.Duration = r.Interval.Duration := by
  intro s r n h hn
  obtain ⟨cs, hi⟩ := parseRepeating_ok s r h
  have hsh := parseIntervalCore_shape cs r.Interval hi
  rcases r with ⟨i, re, reps⟩
  dsimp at hsh hn ⊢
  subst hn
  rcases hsh with ⟨a, b, hI⟩ | ⟨a, d, hI⟩ | ⟨b, d, hI⟩ <;> subst hI
  · exact ⟨rfl, rfl, rfl, rfl, rfl⟩
  · refine ⟨rfl, rfl, rfl, rfl, ?_⟩
    simp [Repeating.Duration, Repeating.StartsAt, Repeating.EndsAt,
      Interval.StartsAt, Interval.EndsAt, Interval.Duration, GoTime.add, GoTime.sub]
  · refine ⟨rfl, rfl, rfl, rfl, ?_⟩
    simp [Repeating.Duration, Repeating.StartsAt, Repeating.EndsAt,
      Interval.StartsAt, Interval.EndsAt, Interval.Duration, GoTime.add, GoTime.sub]
/-- Claim C5, counterexample: `R10/P1W/2022-01-03T21:00:00Z` parses with
repetition count 10 and `RepeatEvery` one week, but the series spans exactly
ONE week — `Duration() = RepeatEvery ≠ 10 × RepeatEvery` and
`EndsAt() ≠ StartsAt() + 10 × RepeatEvery`: the series start is the wrapped
interval's derived start (end − 1 week), not end − 10 weeks. -/
theorem claim_C5_counterexample :
    ParseRepeatingIntervalISO8601 "R10/P1W/2022-01-03T21:00:00Z" =
      .ok ⟨⟨none, some ⟨1641243600000000000, 0⟩, some 604800000000000⟩,
        604800000000000, some 10⟩ ∧
    Repeating.Duration ⟨⟨none, some ⟨1641243600000000000, 0⟩, some 604800000000000⟩,
        604800000000000, some 10⟩ = some 604800000000000 ∧
    Repeating.EndsAt ⟨⟨none, some ⟨1641243600000000000, 0⟩, some 604800000000000⟩,
        604800000000000, some 10⟩ = some ⟨1641243600000000000, 0⟩ ∧
    Repeating.StartsAt ⟨⟨none, some ⟨1641243600000000000, 0⟩, some 604800000000000⟩,
        604800000000000, some 10⟩ = some ⟨1640638800000000000, 0⟩ ∧
    some (604800000000000 : Int) ≠ some ((10 : Int) * 604800000000000) ∧
    (1641243600000000000 : Int) ≠ 1640638800000000000 + 10 * 604800000000000 := by
  refine ⟨by decide, by decide, by decide, by decide, by decide, by decide⟩

/-- Claim C5, witness: `claim_C5_theorem` applied to the parsed
`R10/P1W/2022-01-03T21:00:00Z`. -/
theorem claim_C5_witness :
    Repeating.StartsAt ⟨⟨none, some ⟨1641243600000000000, 0⟩, some 604800000000000⟩,
        604800000000000, some 10⟩ =
      Interval.StartsAt ⟨none, some ⟨1641243600000000000, 0⟩, some 604800000000000⟩ :=
  (claim_C5_theorem ("R10/P1W/2022-01-03T21:00:00Z")
    ⟨⟨none, some ⟨1641243600000000000, 0⟩, some 604800000000000⟩, 604800000000000, some 10⟩
    10 (by decide) rfl).2.2.1

/-- Claim C6, counterexample: for the parsed `R/2019-01-02T21:00:00Z/P1W`
(whose wrapped interval's end is duration-derived) at `t = start + 2 weeks`,
all of the claim's hypotheses hold — effective start present, positive step,
`Started(t)`, not `Ended(t)` — and the candidate boundary `start + 3 weeks` is
strictly past the series' end `EndsAt() = start + 1 week`, yet `Next` returns
it instead of the claimed nil: the end guard consults the raw `endsAt` field,
which is nil here. -/
theorem claim_C6_counterexample :
    ParseRepeatingIntervalISO8601 "R/2019-01-02T21:00:00Z/P1W" =
      .ok ⟨⟨some ⟨1546462800000000000, 0⟩, none, some 604800000000000⟩,
        604800000000000, none⟩ ∧
    Repeating.StartsAt ⟨⟨some ⟨1546462800000000000, 0⟩, none, some 604800000000000⟩,
        604800000000000, none⟩ = some ⟨1546462800000000000, 0⟩ ∧
    (0 : Int) < 604800000000000 ∧
    Repeating.Started ⟨⟨some ⟨1546462800000000000, 0⟩, none, some 604800000000000⟩,
        604800000000000, none⟩ ⟨1547672400000000000, 0⟩ = true ∧
    Repeating.Ended ⟨⟨some ⟨1546462800000000000, 0⟩, none, some 604800000000000⟩,
        604800000000000, none⟩ ⟨1547672400000000000, 0⟩ = false ∧
    Repeating.EndsAt ⟨⟨some ⟨1546462800000000000, 0⟩, none, some 604800000000000⟩,
        604800000000000, none⟩ = some ⟨1547067600000000000, 0⟩ ∧
    Repeating.Next ⟨⟨some ⟨1546462800000000000, 0⟩, none, some 604800000000000⟩,
        604800000000000, none⟩ ⟨1547672400000000000, 0⟩ = some ⟨1548277200000000000, 0⟩ ∧
    (1547067600000000000 : Int) < 1548277200000000000 := by
  refine ⟨by decide, by decide, by decide, by decide, by decide, by decide, by decide, by decide⟩

/-- Claim C6 (amended): under the claim's hypotheses, `Next(t)` is
`t + RepeatEvery` when `(t − StartsAt()) % RepeatEvery` (Go's truncated `%`,
i.e. `Int.tmod`) is zero and otherwise `t + (RepeatEvery − offset)`, a
boundary strictly after `t`; nil is returned when `Ended` holds at that
candidate — which compares against the interval's explicit or
repetition-derived upper bound, NOT against a duration-derived `EndsAt()` —
and `Next(t) = StartsAt()` when not started, nil when `Started(t)` and
`Ended(t)`. -/
theorem claim_C6_theorem :
    ∀ (r : Repeating) (t s : GoTime),
      r.StartsAt = some s → 0 < r.RepeatEvery →
      (r.Started t = false → r.Next t = r.StartsAt) ∧
      (r.Started t = true → r.Ended t = true → r.Next t = none) ∧
      (r.Started t = true → r.Ended t = false →
        ∃ nxt : GoTime,
          nxt = t.add (r.RepeatEvery - Int.tmod (t.sub s) r.RepeatEvery) ∧
          t.nanos < nxt.nanos ∧
          (Int.tmod (t.sub s) r.RepeatEvery = 0 → nxt = t.add r.RepeatEvery) ∧
          r.Next t = (if r.Ended nxt then none else some nxt)) := by
  intro r t s hs hre
  refine ⟨?_, ?_, ?_⟩
  · intro hns
    simp [Repeating.Next, hns]
  · intro hst hen
    simp [Repeating.Next, hst, hen]
  · intro hst hen
    refine ⟨t.add (r.RepeatEvery - Int.tmod (t.sub s) r.RepeatEvery), rfl, ?_, ?_, ?_⟩
    · have hlt := Int.tmod_lt_of_pos (t.sub s) hre
      simp [GoTime.add]
      omega
    · intro h0
      rw [h0]
      simp
    · simp [Repeating.Next, hst, hen, hs, hre.ne']

/-- Claim C6, witness: `claim_C6_theorem` at a bounded repeating interval
(start 0, end 100, step 10) and `t = 5`: the next boundary is 10. -/
theorem claim_C6_witness :
    Repeating.Next ⟨⟨some ⟨0, 0⟩, some ⟨100, 0⟩, none⟩, 10, none⟩ ⟨5, 0⟩ = some ⟨10, 0⟩ := by
  have h := claim_C6_theorem ⟨⟨some ⟨0, 0⟩, some ⟨100, 0⟩, none⟩, 10, none⟩ ⟨5, 0⟩ ⟨0, 0⟩
    (by decide) (by decide)
  obtain ⟨-, -, h3⟩ := h
  obtain ⟨nxt, hdef, -, -, heq⟩ := h3 (by decide) (by decide)
  subst hdef
  rw [heq]
  decide


end TI
